import Mathlib

/-!
Shallow embedding of the Telegram keyword-parser repository
(src/main.py, src/bot.py, src/main_comm_v2.py): keyword loading and
matching, the two duplicate caches, message-link construction, the
notification paths and the audit log, together with theorems settling the
specification's claims about them.

All configured inputs are ASCII, so Python's `str.lower` and `str.strip`
are modelled character-by-character over the ASCII range (`pyLower`,
`pyStrip`); Python's float timestamps from `time.time()` are modelled as
integers.
-/

namespace ParserRepo

/-- Python's `str.lower` on the ASCII strings involved, character by
character. -/
def pyLower (s : String) : String :=
  String.mk (s.data.map Char.toLower)

/-- Python's `str.strip()` on a list of characters: drop whitespace from
both ends. -/
def pyStripList (l : List Char) : List Char :=
  ((l.dropWhile Char.isWhitespace).reverse.dropWhile Char.isWhitespace).reverse

/-- Python's `str.strip()`. -/
def pyStrip (s : String) : String :=
  String.mk (pyStripList s.data)

/-- Python's `str.startswith`. -/
def pyStartsWith (s pre : String) : Bool :=
  pre.data.isPrefixOf s.data

/-- Python's substring test `needle in hay` on lists of characters:
true iff `needle` occurs contiguously inside `hay`. -/
def listContainsSub (needle : List Char) : List Char → Bool
  | [] => needle.isEmpty
  | c :: rest => needle.isPrefixOf (c :: rest) || listContainsSub needle rest

/-- Python's substring test `needle in hay` for strings. -/
def strContains (hay needle : String) : Bool :=
  listContainsSub needle.data hay.data

/-- A regex word character (`\w`) as used by Python's `re` on the ASCII
texts involved: a letter, a digit or an underscore. -/
def isWordChar (c : Char) : Bool :=
  c.isAlphanum || c == '_'

/-- Word-character test lifted to an optional character; `none` stands for
the start or end of the text, which is never a word character. -/
def isWordOpt : Option Char → Bool
  | none => false
  | some c => isWordChar c

/-- A `\b` word boundary holds between two (optional) characters iff
exactly one of them is a word character. -/
def boundB (a b : Option Char) : Bool :=
  isWordOpt a != isWordOpt b

/-- Does the literal (already lowercased) keyword match at the head of
`hay`, with a `\b` boundary on each side?  `prev` is the character just
before this position (`none` at the start of the text). -/
def matchAt (kw hay : List Char) (prev : Option Char) : Bool :=
  kw.isPrefixOf hay &&
  boundB prev hay.head? &&
  boundB (if kw.isEmpty then prev else kw.getLast?) (hay.drop kw.length).head?

/-- Scan of `re.search` for the pattern `\b<literal kw>\b`: try every
position of `hay`, threading the previous character for the boundary
test. -/
def searchFrom (kw : List Char) : List Char → Option Char → Bool
  | [], prev => matchAt kw [] prev
  | c :: rest, prev => matchAt kw (c :: rest) prev || searchFrom kw rest (some c)

/-- `re.search(fr'(?i)\b{re.escape(keyword)}\b', text)` from bot.py line
110-111 and main_comm_v2.py line 110-111, for the literal keywords the
program escapes: case-insensitivity `(?i)` is modelled by lowercasing
both sides. -/
def reSearchWordB (kw text : String) : Bool :=
  searchFrom (pyLower kw).data (pyLower text).data none

/-- Python dict assignment `m[k] = v`: overwrite in place when the key is
present (keeping its position), append otherwise. -/
def dictInsert (m : List (String × String)) (k v : String) : List (String × String) :=
  if m.any (fun p => p.1 == k) then
    m.map (fun p => if p.1 == k then (k, v) else p)
  else
    m ++ [(k, v)]

/-- Python `line.split(sep, 1)` for a one-character separator, on lists of
characters: the part before the first occurrence and the part after it. -/
def splitFirst (c : Char) (s : List Char) : List Char × List Char :=
  (s.takeWhile (fun a => a != c), ((s.dropWhile (fun a => a != c)).drop 1))

/-- One iteration of the line loop of `load_keywords` (main.py lines
63-75): strip the line, skip blank and `#` lines, split on the first of
`|`, `:`, `,` that occurs in the line (alias defaulting to the line
itself), and return the `(keyword_lower, alias)` pair to store. -/
def parseKwLine (raw : String) : Option (String × String) :=
  let l := pyStrip raw
  if l.data.isEmpty || pyStartsWith l "#" then none
  else
    match ['|', ':', ','].find? (fun c => l.data.contains c) with
    | some c =>
      let parts := splitFirst c l.data
      some (pyLower (pyStrip (String.mk parts.1)), pyStrip (String.mk parts.2))
    | none => some (pyLower l, l)

/-- `load_keywords(path)` from main.py lines 44-76.  The file system is
passed explicitly: `none` means the path does not exist (the function
logs a warning and returns the empty mapping), `some lines` gives the
file's lines. -/
def load_keywords (file : Option (List String)) : List (String × String) :=
  match file with
  | none => []
  | some lines =>
    lines.foldl (fun m raw =>
      match parseKwLine raw with
      | none => m
      | some kv => dictInsert m kv.1 kv.2) []

/-- `find_keyword(text, kw_map)` from main.py lines 79-88: the alias of
the first keyword that is a substring of the lowercased text. -/
def find_keyword (text : String) (kwMap : List (String × String)) : Option String :=
  (kwMap.find? (fun p => strContains (pyLower text) p.1)).map (fun p => p.2)

/-- The keyword-loading statements of bot.py lines 59-63 and
main_comm_v2.py lines 46-50: `open(...)` raises when the file is missing
(modelled by `Except.error ()`, which stops the process at startup),
otherwise every line is stripped and lowercased, blank lines included. -/
def botLoadList (file : Option (List String)) : Except Unit (List String) :=
  match file with
  | none => Except.error ()
  | some lines => Except.ok (lines.map (fun l => pyLower (pyStrip l)))

/-- The per-group keyword scan of bot.py lines 109-113 and
main_comm_v2.py lines 109-112: the first keyword whose `\b`-anchored
case-insensitive pattern is found in the text, provided no excluded word
is a substring of the lowercased text. -/
def findMatch (keywords excludedWords : List String) (text : String) : Option String :=
  keywords.find? (fun kw =>
    reSearchWordB kw text &&
    !(excludedWords.any (fun w => strContains (pyLower text) w)))

/-- The view of a Telethon chat object that the link builders read:
its id, its `username` attribute (`none` when absent) and whether it is
an instance of `Channel`. -/
structure ChatRef where
  id : Int
  username : Option String
  isChannel : Bool
  deriving DecidableEq

/-- Python truthiness of an optional string (`if username:`):
false for `None` and for the empty string. -/
def pyTruthyStr : Option String → Bool
  | none => false
  | some s => !(s == "")

/-- `tg_link(chat, msg_id)` from main.py lines 91-105. -/
def tg_link (chat : ChatRef) (msgId : Int) : String :=
  if pyTruthyStr chat.username then
    "https://t.me/" ++ chat.username.getD "" ++ "/" ++ toString msgId
  else if chat.isChannel then
    "https://t.me/c/" ++ toString ((chat.id.natAbs : Int) - 10 ^ 12) ++ "/" ++ toString msgId
  else
    "—"

/-- `create_message_link(chat, message_id)` from main_comm_v2.py lines
69-77: no `abs`, and every chat without a truthy username falls into the
`t.me/c/` branch (there is no placeholder case). -/
def create_message_link (chat : ChatRef) (messageId : Int) : String :=
  if pyTruthyStr chat.username then
    "https://t.me/" ++ chat.username.getD "" ++ "/" ++ toString messageId
  else
    "https://t.me/c/" ++ toString (chat.id - 1000000000000) ++ "/" ++ toString messageId

/-- The TTL cache of main.py lines 108-124: `ttl` in seconds and a dict
from `(chat_id, msg_id)` keys to the timestamp at which each was first
seen. -/
structure DupCache where
  ttl : Int
  cache : List ((Int × Int) × Int)

/-- `DupCache.add(chat_id, msg_id)` from main.py lines 115-124, with the
current time passed explicitly: first drop every entry whose age reaches
the TTL, then report `false` if the key is still present and otherwise
record it with timestamp `now` and report `true`. -/
def DupCache.add (c : DupCache) (chatId msgId : Int) (now : Int) : Bool × DupCache :=
  let key := (chatId, msgId)
  let cleaned := c.cache.filter (fun kv => decide (now - kv.2 < c.ttl))
  if cleaned.any (fun kv => decide (kv.1 = key)) then
    (false, { c with cache := cleaned })
  else
    (true, { c with cache := cleaned ++ [(key, now)] })

/-- `clean_old_messages()` from main_comm_v2.py lines 62-67: delete the
entries strictly older than the expiry time. -/
def clean_old_messages (pm : List ((Int × Int) × Int)) (now ttl : Int) :
    List ((Int × Int) × Int) :=
  pm.filter (fun kv => !decide (now - kv.2 > ttl))

/-- The duplicate handling of main_comm_v2.py lines 88-100 inside
`handle_new_message`: membership in `processed_messages` is tested
first (a hit returns immediately, leaving the dict untouched); only on a
miss is the key inserted and `clean_old_messages` run. -/
def v2_observe (pm : List ((Int × Int) × Int)) (key : Int × Int) (now ttl : Int) :
    Bool × List ((Int × Int) × Int) :=
  if pm.any (fun kv => decide (kv.1 = key)) then
    (false, pm)
  else
    (true, clean_old_messages (pm ++ [(key, now)]) now ttl)

/-- A group configuration of main.py (`keyword_groups` entry plus its
loaded `GroupData`): a name, the loaded keyword→alias mapping and the
target chat id. -/
structure Group where
  name : String
  keywords : List (String × String)
  targetChatId : Int
  deriving DecidableEq

/-- A group configuration of bot.py/main_comm_v2.py: a name, the loaded
keyword list, the loaded excluded-word list and the target chat id. -/
structure GroupB where
  name : String
  keywordList : List String
  excludedWords : List String
  targetChatId : Int
  deriving DecidableEq

/-- The view of a Telethon message that the handlers read: originating
chat id, message id, the `out` flag, the `channel_id` of `msg.to_id`
when present, and the text. -/
structure Msg where
  chatId : Int
  id : Int
  out : Bool
  toChannelId : Option Int
  text : String
  deriving DecidableEq

/-- The group selection of main.py line 169:
`next((x for x in groups if x.target_chat_id and chat.id), None)` —
the first configured group such that both its target chat id and the
message's chat id are truthy (nonzero); it never compares the two. -/
def selectGroup (groups : List Group) (chatId : Int) : Option Group :=
  groups.find? (fun g => decide (g.targetChatId ≠ 0) && decide (chatId ≠ 0))

/-- Whether `on_new_message` of main.py lines 164-181 reaches the
`find_keyword` call for the selected group: a group must be selected,
the duplicate filter (`dup_cache.add`) must report the message as new,
and the self-notification guard
`msg.out and msg.to_id and getattr(msg.to_id, "channel_id", None) == g.target_chat_id`
must not fire. -/
def mainPyEvaluates (groups : List Group) (c : DupCache) (msg : Msg) (now : Int) : Bool :=
  match selectGroup groups msg.chatId with
  | none => false
  | some g =>
    if (DupCache.add c msg.chatId msg.id now).1 then
      if msg.out && (match msg.toChannelId with
                     | some cid => decide (cid = g.targetChatId)
                     | none => false) then
        false
      else
        true
    else
      false

/-- The names of the groups whose keyword table `on_new_message` of
main.py can scan for one message: at most the single group returned by
`selectGroup` (the handler never loops over the group list). -/
def mainPyGroupsScanned (groups : List Group) (chatId : Int) : List String :=
  match selectGroup groups chatId with
  | none => []
  | some g => [g.name]

/-- The names of the groups whose keyword loop `handle_new_message` of
main_comm_v2.py lines 80-109 reaches for one message: the loop-and-return
of lines 84-86 drops the message entirely when its chat id equals any
group's target chat id, then the duplicate check of lines 92-94 drops
re-observed keys; otherwise the keyword loop of line 103 onward visits
every configured group. -/
def v2EvaluatedGroups (groups : List GroupB) (pm : List ((Int × Int) × Int))
    (msg : Msg) (now ttl : Int) : List String :=
  if groups.any (fun g => decide (msg.chatId = g.targetChatId)) then []
  else if (v2_observe pm (msg.chatId, msg.id) now ttl).1 then
    groups.map (fun g => g.name)
  else []

/-- Outcome of one `client.send_message` call, as the handlers
distinguish them: success, a `FloodWaitError` carrying its wait in
seconds, or any other exception (which only the outer
`except Exception: raise` of bot.py sees). -/
inductive SendOutcome where
  | ok
  | floodWait (seconds : Int)
  | err

/-- The names of the groups whose keyword scan the group loop of bot.py
lines 99-143 reaches for one message, given the outcome each group's
send attempt would have.  A group whose target chat equals the message's
chat is skipped (`continue`, line 105-107); on a keyword hit the send is
attempted, a `FloodWaitError` is caught in place (sleep, then `break` to
the next group), and any other exception propagates out of the group
loop, so the remaining groups are never reached. -/
def botEvaluated : List GroupB → Msg → (String → SendOutcome) → List String
  | [], _, _ => []
  | g :: rest, msg, send =>
    if decide (msg.chatId = g.targetChatId) then
      botEvaluated rest msg send
    else
      match findMatch g.keywordList g.excludedWords msg.text with
      | none => g.name :: botEvaluated rest msg send
      | some _ =>
        match send g.name with
        | SendOutcome.err => [g.name]
        | _ => g.name :: botEvaluated rest msg send

/-- Observable effects of one notification attempt: how many times
`send_message` was called, which sleeps were performed inside the
handler call, and whether the notification was delivered. -/
structure NotifyTrace where
  sendAttempts : Nat
  sleeps : List Int
  delivered : Bool
  deriving DecidableEq

/-- The send block of bot.py lines 136-142: one `send_message` call; on
`FloodWaitError` it logs and `await asyncio.sleep(e.seconds)` inside the
current handler call, and then falls through to `break` — the send is
never re-attempted for this notification. -/
def botNotify : SendOutcome → NotifyTrace
  | SendOutcome.ok => ⟨1, [], true⟩
  | SendOutcome.floodWait s => ⟨1, [s], false⟩
  | SendOutcome.err => ⟨1, [], false⟩

/-- The send block of main_comm_v2.py lines 155-158: one `send_message`
call; on `FloodWaitError` it only prints the wait — it neither sleeps
nor retries. -/
def v2Notify : SendOutcome → NotifyTrace
  | SendOutcome.ok => ⟨1, [], true⟩
  | SendOutcome.floodWait _ => ⟨1, [], false⟩
  | SendOutcome.err => ⟨1, [], false⟩

/-- The CSV header row written by `GroupData.__init__` (main.py lines
142-144). -/
def auditHeader : List String := ["datetime_utc", "chat_id", "message_id", "text"]

/-- Opening the audit sink in `GroupData.__init__` (main.py lines
136-144): the file is opened in append mode (never truncated) and the
header row is written exactly when the file is empty. -/
def openSink (file : List (List String)) : List (List String) :=
  if file.isEmpty then [auditHeader] else file

/-- One process lifetime against the audit sink, iterated: each session
opens the sink (`GroupData.__init__`) and then appends its records
(`csv.writer(...).writerow` in `on_new_message`, main.py lines 207-217),
one row per record, in order. -/
def runSessions : List (List String) → List (List (List String)) → List (List String)
  | file, [] => file
  | file, recs :: rest => runSessions (openSink file ++ recs) rest

/-! ### Helper lemmas -/

/-- The empty needle is a substring of every character list. -/
lemma listContainsSub_nil (l : List Char) : listContainsSub [] l = true := by
  cases l with
  | nil => rfl
  | cons c rest => rfl

/-- Python's `"" in hay` is always true. -/
lemma strContains_empty (hay : String) : strContains hay "" = true :=
  listContainsSub_nil hay.data

/-- When some excluded word is a substring of the lowercased text, the
per-keyword condition of the bot.py / main_comm_v2.py scan fails for
every keyword, so no match is reported. -/
lemma findMatch_eq_none_of_any_excluded {keywords excludedWords : List String}
    {text : String}
    (h : excludedWords.any (fun w => strContains (pyLower text) w) = true) :
    findMatch keywords excludedWords text = none := by
  rw [findMatch, List.find?_eq_none]
  intro kw _
  simp [h]

/-- In a list whose entries all have keys different from `key`, no
filtered sublist contains `key`. -/
lemma any_key_filter_false {l : List ((Int × Int) × Int)} {key : Int × Int}
    (h : ∀ e ∈ l, e.1 ≠ key) (p : (Int × Int) × Int → Bool) :
    (l.filter p).any (fun kv => decide (kv.1 = key)) = false := by
  rw [List.any_eq_false]
  intro kv hkv
  simp only [List.mem_filter] at hkv
  simpa using h kv hkv.1

/-- Opening a non-empty audit sink leaves it unchanged. -/
lemma openSink_of_ne_nil {file : List (List String)} (h : file ≠ []) :
    openSink file = file := by
  rw [openSink, if_neg]
  simpa using h

/-- Once the sink is non-empty, every further session only appends its
records. -/
lemma runSessions_of_ne_nil (rest : List (List (List String)))
    (file : List (List String)) (h : file ≠ []) :
    runSessions file rest = file ++ rest.flatten := by
  induction rest generalizing file with
  | nil => simp [runSessions]
  | cons recs rest ih =>
    rw [runSessions, openSink_of_ne_nil h,
      ih (file ++ recs) (by simp [h])]
    simp

/-! ### Claim theorems -/

/-- C3 counterexample: the claim's private-channel example is wrong for
both builders.  For `chat.id = -1001234567890` and message id 42,
`tg_link` (main.py) computes `abs(chat.id) - 10^12 = 1234567890` and so
returns `https://t.me/c/1234567890/42`, not the claimed
`https://t.me/c/234567890/42`; and `create_message_link`
(main_comm_v2.py) subtracts `10^12` without `abs`, returning the
malformed link whose adjusted id is the negative number -2001234567890. -/
theorem link_builder_counterexample :
    tg_link ⟨-1001234567890, none, true⟩ 42 = "https://t.me/c/1234567890/42" ∧
    tg_link ⟨-1001234567890, none, true⟩ 42 ≠ "https://t.me/c/234567890/42" ∧
    create_message_link ⟨-1001234567890, none, true⟩ 42 =
      "https://t.me/c/-2001234567890/42" := by
  refine ⟨by decide, by decide, by decide⟩

/-- C3 (amended): for a public chat with handle `abc` and message id 42
the builder returns `https://t.me/abc/42` — proved here for `tg_link`
in main.py and `create_message_link` in main_comm_v2.py alike; for a
private channel/supergroup `tg_link` returns
`https://t.me/c/<abs(chat.id) - 10^12>/<message_id>`, so internal id
`-1001234567890` with message id 42 yields `https://t.me/c/1234567890/42`;
for a small private group with neither handle nor `Channel` type,
main.py's `tg_link` returns the placeholder `"—"` and never a malformed
URL, while `create_message_link` in main_comm_v2.py has no placeholder
branch and returns `https://t.me/c/<chat.id - 10^12>/<message_id>`
(negative for every negative chat id). -/
theorem link_builder_amended :
    (∀ (i m : Int) (b : Bool),
      tg_link ⟨i, some "abc", b⟩ m = "https://t.me/abc/" ++ toString m) ∧
    tg_link ⟨7, some "abc", false⟩ 42 = "https://t.me/abc/42" ∧
    (∀ (i m : Int) (b : Bool),
      create_message_link ⟨i, some "abc", b⟩ m = "https://t.me/abc/" ++ toString m) ∧
    create_message_link ⟨7, some "abc", false⟩ 42 = "https://t.me/abc/42" ∧
    tg_link ⟨-1001234567890, none, true⟩ 42 = "https://t.me/c/1234567890/42" ∧
    (∀ (i m : Int), tg_link ⟨i, none, false⟩ m = "—") ∧
    (∀ (i m : Int), create_message_link ⟨i, none, false⟩ m =
      "https://t.me/c/" ++ toString (i - 1000000000000) ++ "/" ++ toString m) :=
  ⟨fun _ _ _ => rfl, by decide, fun _ _ _ => rfl, by decide, by decide,
    fun _ _ => rfl, fun _ _ => rfl⟩

/-- C5: on the table `{"wallet1": "Alias A"}`, the message
`"please send to wallet1 now"` matches in both modes and `find_keyword`
returns the alias `"Alias A"`; the message `"mywallet123"` does not
match under the whole-word `\b` mode of bot.py/main_comm_v2.py but does
match under the substring mode of `find_keyword` in main.py. -/
theorem keyword_matching_modes :
    find_keyword "please send to wallet1 now" [("wallet1", "Alias A")] = some "Alias A" ∧
    reSearchWordB "wallet1" "please send to wallet1 now" = true ∧
    reSearchWordB "wallet1" "mywallet123" = false ∧
    find_keyword "mywallet123" [("wallet1", "Alias A")] = some "Alias A" := by
  refine ⟨by decide, by decide, by decide, by decide⟩

/-- C6: whenever some excluded term of a group is a substring of the
lowercased message text, the bot.py / main_comm_v2.py scan reports no
keyword match for that group, whatever the keyword list — the candidate
match is suppressed even when a keyword pattern satisfies the match
mode. -/
theorem exclusion_veto (keywords excludedWords : List String) (text w : String)
    (hw : w ∈ excludedWords) (hsub : strContains (pyLower text) w = true) :
    findMatch keywords excludedWords text = none := by
  apply findMatch_eq_none_of_any_excluded
  rw [List.any_eq_true]
  exact ⟨w, hw, hsub⟩

/-- C6 witness: the keyword `alpha` matches the text `alpha is bad` in
whole-word mode, yet the excluded word `bad` suppresses the match. -/
theorem exclusion_veto_witness :
    reSearchWordB "alpha" "alpha is bad" = true ∧
    findMatch ["alpha"] ["bad"] "alpha is bad" = none :=
  ⟨by decide, exclusion_veto ["alpha"] ["bad"] "alpha is bad" "bad" (by decide) (by decide)⟩

/-- C7 counterexample: in bot.py (and main_comm_v2.py) the keyword file
is opened without any guard, so a missing file raises at startup
(`Except.error ()` in the model) instead of degrading to an empty
table — the claimed "never a fatal startup error" fails there. -/
theorem keyword_load_counterexample :
    botLoadList none = Except.error () ∧ botLoadList none ≠ Except.ok [] :=
  ⟨rfl, fun h => Except.noConfusion h⟩

/-- C7 (amended): in main.py, `load_keywords` on a missing file logs a
warning and returns the empty table, and the process continues; but in
bot.py and main_comm_v2.py the keyword and excluded-word files are
opened unguarded at startup, so a missing file is a fatal startup error
(while an existing file loads every stripped, lowercased line). -/
theorem keyword_load_amended :
    load_keywords none = [] ∧
    botLoadList none = Except.error () ∧
    (∀ lines, botLoadList (some lines) =
      Except.ok (lines.map (fun l => pyLower (pyStrip l)))) :=
  ⟨rfl, rfl, fun _ => rfl⟩

/-- C9 counterexample: on `FloodWaitError{retry_after = 5}` the bot.py
handler makes exactly one `send_message` attempt — it sleeps 5 seconds
and then gives up without the claimed single retry (which would make two
send attempts) — and the main_comm_v2.py handler does not even sleep. -/
theorem floodwait_retry_counterexample :
    botNotify (SendOutcome.floodWait 5) = ⟨1, [5], false⟩ ∧
    (botNotify (SendOutcome.floodWait 5)).sendAttempts ≠ 2 ∧
    v2Notify (SendOutcome.floodWait 5) = ⟨1, [], false⟩ := by
  refine ⟨rfl, by decide, rfl⟩

/-- C9 (amended): on a rate-limit error with `retry_after = t`, the
bot.py handler sleeps exactly `t` inside the current notification call
(the wait is local to that call) and then abandons the notification
after its single send attempt, never retrying; the main_comm_v2.py
handler only logs, with neither sleep nor retry; a successful send is a
single attempt with no sleep. -/
theorem floodwait_amended (t : Int) :
    botNotify (SendOutcome.floodWait t) = ⟨1, [t], false⟩ ∧
    v2Notify (SendOutcome.floodWait t) = ⟨1, [], false⟩ ∧
    botNotify SendOutcome.ok = ⟨1, [], true⟩ :=
  ⟨rfl, rfl, rfl⟩

/-- C9 witness: a flood wait of 7 seconds is one send attempt followed
by a 7-second local sleep and no delivery. -/
theorem floodwait_amended_witness :
    botNotify (SendOutcome.floodWait 7) = ⟨1, [7], false⟩ :=
  (floodwait_amended 7).1

/-- C10: the bot.py / main_comm_v2.py loaders do not skip blank lines,
so a whitespace-only line in the excluded-words file becomes the empty
string in the loaded excluded list; since the empty string is a
substring of every lowercased text, every candidate keyword match of
that group is suppressed — no message ever produces a match (hence no
notification) for the group. -/
theorem blank_excluded_line_suppresses (exLines keywords excluded : List String)
    (text l : String)
    (hload : botLoadList (some exLines) = Except.ok excluded)
    (hl : l ∈ exLines) (hblank : pyStrip l = "") :
    findMatch keywords excluded text = none := by
  have hexc : exLines.map (fun s => pyLower (pyStrip s)) = excluded := by
    have h2 : (Except.ok (exLines.map (fun s => pyLower (pyStrip s))) :
        Except Unit (List String)) = Except.ok excluded := hload
    injection h2
  apply findMatch_eq_none_of_any_excluded
  rw [List.any_eq_true]
  refine ⟨"", ?_, strContains_empty _⟩
  rw [← hexc, List.mem_map]
  exact ⟨l, hl, by rw [hblank]; rfl⟩

/-- C10 witness: an excluded-words file consisting of one whitespace-only
line suppresses the otherwise-matching keyword `hello` on the message
`hello`. -/
theorem blank_excluded_line_suppresses_witness :
    reSearchWordB "hello" "hello" = true ∧
    findMatch ["hello"] [""] "hello" = none :=
  ⟨by decide,
    blank_excluded_line_suppresses ["  "] ["hello"] [""] "hello" "  "
      rfl (by decide) (by decide)⟩

/-- C1 counterexample: in main_comm_v2.py the membership test of
`processed_messages` runs before any purge, and `clean_old_messages`
runs only after a new key is inserted, so with TTL = 86400 a key first
seen at time 0 and re-observed at time 100000 — well past its TTL — is
still reported as already processed (`false`), contradicting the claim
that an expired entry never blocks reprocessing. -/
theorem dup_guard_counterexample :
    (v2_observe (v2_observe [] (1, 2) 0 86400).2 (1, 2) 100000 86400).1 = false ∧
    (100000 : Int) - 0 > 86400 := by
  refine ⟨by decide, by decide⟩

/-- C1 (amended): for `DupCache.add` in main.py the claim holds — a key
with no live entry is reported new (`true`), a re-observation strictly
inside the TTL window is reported duplicate (`false`), and once the TTL
has elapsed since the first observation the key is reported new again.
In main_comm_v2.py, however, any key present in `processed_messages` is
reported as a duplicate regardless of how old its entry is (the purge
only runs after a fresh insertion), so an expired entry does block
reprocessing there. -/
theorem dup_guard_ttl_amended (ttl t1 t2 chatId msgId : Int) (c : DupCache)
    (hc : c.ttl = ttl)
    (hkey : ∀ e ∈ c.cache, e.1 ≠ (chatId, msgId)) :
    (DupCache.add c chatId msgId t1).1 = true ∧
    (t2 - t1 < ttl →
      ((DupCache.add c chatId msgId t1).2.add chatId msgId t2).1 = false) ∧
    (ttl ≤ t2 - t1 →
      ((DupCache.add c chatId msgId t1).2.add chatId msgId t2).1 = true) ∧
    (∀ (pm : List ((Int × Int) × Int)) (key : Int × Int) (now : Int),
      pm.any (fun kv => decide (kv.1 = key)) = true →
      (v2_observe pm key now ttl).1 = false) := by
  have hany1 : (c.cache.filter (fun kv => decide (t1 - kv.2 < c.ttl))).any
      (fun kv => decide (kv.1 = (chatId, msgId))) = false :=
    any_key_filter_false hkey _
  have hadd1 : DupCache.add c chatId msgId t1 =
      (true, { c with cache :=
        c.cache.filter (fun kv => decide (t1 - kv.2 < c.ttl)) ++
          [((chatId, msgId), t1)] }) := by
    rw [DupCache.add]
    simp only [hany1]
    rfl
  refine ⟨by rw [hadd1], ?_, ?_, ?_⟩
  · intro hlt
    rw [hadd1, DupCache.add]
    have hmem : ((chatId, msgId), t1) ∈
        (c.cache.filter (fun kv => decide (t1 - kv.2 < c.ttl)) ++
          [((chatId, msgId), t1)]).filter
          (fun kv => decide (t2 - kv.2 < c.ttl)) := by
      rw [List.mem_filter]
      refine ⟨List.mem_append_right _ (by simp), by simpa [hc] using hlt⟩
    have hany2 : ((c.cache.filter (fun kv => decide (t1 - kv.2 < c.ttl)) ++
          [((chatId, msgId), t1)]).filter
          (fun kv => decide (t2 - kv.2 < c.ttl))).any
        (fun kv => decide (kv.1 = (chatId, msgId))) = true := by
      rw [List.any_eq_true]
      exact ⟨((chatId, msgId), t1), hmem, by simp⟩
    simp only [hany2]
    rfl
  · intro hge
    rw [hadd1, DupCache.add]
    have hany2 : ((c.cache.filter (fun kv => decide (t1 - kv.2 < c.ttl)) ++
          [((chatId, msgId), t1)]).filter
          (fun kv => decide (t2 - kv.2 < c.ttl))).any
        (fun kv => decide (kv.1 = (chatId, msgId))) = false := by
      rw [List.any_eq_false]
      intro kv hkv
      rw [List.mem_filter, List.mem_append] at hkv
      rcases hkv with ⟨hmem | hlast, hlive⟩
      · rw [List.mem_filter] at hmem
        simpa using hkey kv hmem.1
      · have hkv1 : kv = ((chatId, msgId), t1) := by simpa using hlast
        rw [hkv1] at hlive
        simp only [decide_eq_true_eq, hc] at hlive
        omega
    simp only [hany2]
    rfl
  · intro pm key now hmem
    rw [v2_observe]
    simp only [hmem]
    rfl

/-- C1 witness: with an empty cache of TTL 86400, the key (1, 2) first
observed at time 0 is reported new again at time 90000, after its TTL
has elapsed. -/
theorem dup_guard_ttl_amended_witness :
    ((DupCache.add ⟨86400, []⟩ 1 2 0).2.add 1 2 90000).1 = true :=
  (dup_guard_ttl_amended 86400 0 90000 1 2 ⟨86400, []⟩ rfl
    (by intro e he; cases he)).2.2.1 (by omega)

/-- C2 counterexample: in main.py a message originating in the selected
group's own target channel (chat id 5) that is not outgoing
(`msg.out = false`) passes the self-notification guard — the guard tests
`msg.out and msg.to_id.channel_id == target`, not the originating chat —
and so reaches the `find_keyword` scan, contradicting the claim that
such a message is never evaluated. -/
theorem self_loop_counterexample :
    mainPyEvaluates [⟨"wallets", [("k", "k")], 5⟩] ⟨86400, []⟩
      ⟨5, 10, false, none, "hello"⟩ 0 = true ∧
    (⟨5, 10, false, none, "hello"⟩ : Msg).chatId =
      (⟨"wallets", [("k", "k")], 5⟩ : Group).targetChatId := by
  refine ⟨by decide, by decide⟩

/-- C2 (amended): in main_comm_v2.py a message whose chat id equals any
group's target chat id is dropped before pattern scanning and for every
state of the duplicate dict (the check is independent of dedup), so it
is never evaluated for any group; in main.py the self-loop rule is
instead "outgoing message addressed to the target channel" — when the
message is outgoing and `msg.to_id.channel_id` equals the selected
group's target, the keyword scan is skipped (that check runs only after
the duplicate filter). -/
theorem self_loop_amended (groups : List GroupB) (pm : List ((Int × Int) × Int))
    (msg : Msg) (now ttl : Int) (g : GroupB)
    (hg : g ∈ groups) (hchat : msg.chatId = g.targetChatId) :
    v2EvaluatedGroups groups pm msg now ttl = [] ∧
    (∀ (mgroups : List Group) (c : DupCache) (mg : Group) (mnow : Int) (m2 : Msg),
      selectGroup mgroups m2.chatId = some mg →
      m2.out = true →
      m2.toChannelId = some mg.targetChatId →
      mainPyEvaluates mgroups c m2 mnow = false) := by
  constructor
  · have hany : groups.any (fun x => decide (msg.chatId = x.targetChatId)) = true := by
      rw [List.any_eq_true]
      exact ⟨g, hg, by simp [hchat]⟩
    rw [v2EvaluatedGroups]
    simp only [hany]
    rfl
  · intro mgroups c mg mnow m2 hsel hout hto
    rw [mainPyEvaluates, hsel]
    cases hdup : (DupCache.add c m2.chatId m2.id mnow).1 with
    | false => simp
    | true => simp [hout, hto]

/-- C2 witness: a message from chat 9 — the target chat of the only
configured group — is dropped by the main_comm_v2.py handler whatever
the duplicate dict holds, and an outgoing main.py message addressed to
the selected group's target channel is not evaluated. -/
theorem self_loop_amended_witness :
    v2EvaluatedGroups [⟨"g", ["k"], [], 9⟩] [((9, 1), 0)]
      ⟨9, 1, false, none, "k"⟩ 50 86400 = [] ∧
    mainPyEvaluates [⟨"w", [("k", "k")], 7⟩] ⟨86400, []⟩
      ⟨3, 1, true, some 7, "k"⟩ 0 = false := by
  have h := self_loop_amended [⟨"g", ["k"], [], 9⟩] [((9, 1), 0)]
    ⟨9, 1, false, none, "k"⟩ 50 86400 ⟨"g", ["k"], [], 9⟩
    (by decide) rfl
  exact ⟨h.1, h.2 [⟨"w", [("k", "k")], 7⟩] ⟨86400, []⟩ ⟨"w", [("k", "k")], 7⟩ 0
    ⟨3, 1, true, some 7, "k"⟩ (by decide) rfl rfl⟩

/-- C4 counterexample: with two configured groups, the main.py handler
scans only the keyword table of the first group whose target chat id is
truthy — group `g2` is never evaluated; and in bot.py a non-FloodWait
send failure while handling `g1` propagates out of the group loop, so
the subsequent group `g2` is not evaluated for that message. -/
theorem group_iteration_counterexample :
    mainPyGroupsScanned
      [⟨"g1", [("a", "a")], 100⟩, ⟨"g2", [("a", "a")], 200⟩] 7 = ["g1"] ∧
    botEvaluated [⟨"g1", ["alpha"], [], 100⟩, ⟨"g2", ["alpha"], [], 200⟩]
      ⟨7, 1, false, none, "alpha"⟩
      (fun n => if n == "g1" then SendOutcome.err else SendOutcome.ok) = ["g1"] := by
  refine ⟨by decide, by decide⟩

/-- C4 (amended): the bot.py handler evaluates every configured group
whose target chat differs from the message's chat, and so long as no
send raises anything other than a `FloodWaitError` (successes and flood
waits are both handled in place), a failure for one group does not
prevent evaluation of the subsequent groups.  The main_comm_v2.py
handler drops the whole message before any scanning when its chat id
equals any group's target (so then no group at all is evaluated, not
even one whose target differs); otherwise, for a fresh (non-duplicate)
message, it scans every configured group.  The main.py handler
evaluates at most one group per message — the first with a truthy
target chat id — never each configured group. -/
theorem group_iteration_amended (groups : List GroupB) (msg : Msg)
    (send : String → SendOutcome)
    (hsend : ∀ s, send s ≠ SendOutcome.err) :
    botEvaluated groups msg send =
      (groups.filter (fun g => !decide (msg.chatId = g.targetChatId))).map
        (fun g => g.name) ∧
    (∀ (pm : List ((Int × Int) × Int)) (now ttl : Int),
      groups.all (fun g => !decide (msg.chatId = g.targetChatId)) = true →
      (v2_observe pm (msg.chatId, msg.id) now ttl).1 = true →
      v2EvaluatedGroups groups pm msg now ttl = groups.map (fun g => g.name)) ∧
    (∀ (pm : List ((Int × Int) × Int)) (now ttl : Int) (g : GroupB),
      g ∈ groups → msg.chatId = g.targetChatId →
      v2EvaluatedGroups groups pm msg now ttl = []) ∧
    (∀ (mgroups : List Group) (chatId : Int),
      (mainPyGroupsScanned mgroups chatId).length ≤ 1) := by
  refine ⟨?_, ?_, ?_, ?_⟩
  · induction groups with
    | nil => rfl
    | cons g rest ih =>
      rw [botEvaluated, List.filter_cons]
      by_cases hc : msg.chatId = g.targetChatId
      · simp [hc, ih]
      · cases hm : findMatch g.keywordList g.excludedWords msg.text with
        | none => simp [hc, hm, ih]
        | some a =>
          cases hs : send g.name with
          | err => exact absurd hs (hsend g.name)
          | ok => simp [hc, hm, hs, ih]
          | floodWait s => simp [hc, hm, hs, ih]
  · intro pm now ttl hall hnew
    have hany : groups.any (fun g => decide (msg.chatId = g.targetChatId)) = false := by
      rw [List.any_eq_false]
      intro g hg
      have := (List.all_eq_true.mp hall) g hg
      simpa using this
    rw [v2EvaluatedGroups]
    simp only [hany, hnew]
    rfl
  · intro pm now ttl g hg hchat
    have hany : groups.any (fun x => decide (msg.chatId = x.targetChatId)) = true := by
      rw [List.any_eq_true]
      exact ⟨g, hg, by simp [hchat]⟩
    rw [v2EvaluatedGroups]
    simp only [hany]
    rfl
  · intro mgroups chatId
    rw [mainPyGroupsScanned]
    cases selectGroup mgroups chatId <;> simp

/-- C4 witness: with two groups, both of whose keyword `alpha` matches
the message from chat 7, every send answered with a flood wait leaves
both groups evaluated in bot.py; the fresh message is scanned for both
groups in main_comm_v2.py; the same message dropped when chat 7 is some
group's target leaves no group evaluated there; and the main.py handler
scans at most one group. -/
theorem group_iteration_amended_witness :
    botEvaluated [⟨"g1", ["alpha"], [], 100⟩, ⟨"g2", ["alpha"], [], 200⟩]
      ⟨7, 1, false, none, "alpha"⟩ (fun _ => SendOutcome.floodWait 5) =
      ["g1", "g2"] ∧
    v2EvaluatedGroups [⟨"g1", ["alpha"], [], 100⟩, ⟨"g2", ["alpha"], [], 200⟩]
      [] ⟨7, 1, false, none, "alpha"⟩ 0 86400 = ["g1", "g2"] ∧
    v2EvaluatedGroups [⟨"g1", ["alpha"], [], 7⟩, ⟨"g2", ["alpha"], [], 200⟩]
      [] ⟨7, 1, false, none, "alpha"⟩ 0 86400 = [] ∧
    (mainPyGroupsScanned
      [⟨"g1", [("a", "a")], 100⟩, ⟨"g2", [("a", "a")], 200⟩] 7).length ≤ 1 := by
  have h := group_iteration_amended
    [⟨"g1", ["alpha"], [], 100⟩, ⟨"g2", ["alpha"], [], 200⟩]
    ⟨7, 1, false, none, "alpha"⟩ (fun _ => SendOutcome.floodWait 5)
    (fun s hcontra => SendOutcome.noConfusion hcontra)
  have h2 := group_iteration_amended
    [⟨"g1", ["alpha"], [], 7⟩, ⟨"g2", ["alpha"], [], 200⟩]
    ⟨7, 1, false, none, "alpha"⟩ (fun _ => SendOutcome.floodWait 5)
    (fun s hcontra => SendOutcome.noConfusion hcontra)
  refine ⟨?_, ?_,
    h2.2.2.1 [] 0 86400 ⟨"g1", ["alpha"], [], 7⟩ (by decide) rfl,
    h.2.2.2 [⟨"g1", [("a", "a")], 100⟩, ⟨"g2", [("a", "a")], 200⟩] 7⟩
  · rw [h.1]
    decide
  · rw [h.2.1 [] 0 86400 (by decide) (by decide)]
    decide

/-- C8: starting from an empty sink file, any non-empty sequence of
process lifetimes — each opening the sink (append mode, header written
only when the file is empty) and appending its audit records — leaves
the file holding exactly the header row followed by all N appended
records in order: N data rows plus exactly one header row; and opening
an already-non-empty sink never truncates it or rewrites the header. -/
theorem audit_roundtrip (sessions : List (List (List String)))
    (h : sessions ≠ []) :
    runSessions [] sessions = auditHeader :: sessions.flatten ∧
    (runSessions [] sessions).length = sessions.flatten.length + 1 ∧
    (∀ file : List (List String), file ≠ [] → openSink file = file) := by
  have hmain : runSessions [] sessions = auditHeader :: sessions.flatten := by
    cases sessions with
    | nil => exact absurd rfl h
    | cons recs rest =>
      rw [runSessions]
      have hopen : openSink ([] : List (List String)) = [auditHeader] := rfl
      rw [hopen, runSessions_of_ne_nil rest ([auditHeader] ++ recs) (by simp)]
      simp
  refine ⟨hmain, by rw [hmain]; simp, fun file hf => openSink_of_ne_nil hf⟩

/-- C8 witness: three sessions against the same sink (the middle one
appending nothing, as across process restarts) leave one header row
followed by the two appended records. -/
theorem audit_roundtrip_witness :
    runSessions [] [[["t1", "1", "2", "x"]], [], [["t2", "3", "4", "y"]]] =
      auditHeader :: [["t1", "1", "2", "x"], ["t2", "3", "4", "y"]] := by
  have h := (audit_roundtrip [[["t1", "1", "2", "x"]], [], [["t2", "3", "4", "y"]]]
    (by decide)).1
  rw [h]
  rfl

end ParserRepo
